import Mathlib

/-!
Verification development for the cameleon-tryon virtual try-on proxy.

The definitions below are a shallow embedding of src/api/generate.js
(the handler, its polling while-loop, the rate-limiting block and the
image uploader) together with the legacy swap-type selection from
src/unnamed/part_000.  Network effects are made explicit: each outbound
call is represented by the value it would produce (a decoded JSON body
or a thrown error message), and the handler is a pure function of those
values.  JS numbers used for the poll interval are modelled as rationals
(the source multiplies by 1.2); timestamps and durations are naturals
in milliseconds.
-/

namespace CameleonTryon

/-- One element of a backend response output array: its image field,
some url when the field holds a truthy image reference. -/
structure OutputItem where
  image : Option String
deriving DecidableEq

/-- Shape of a backend (RunPod) JSON response body: the status, id and
output fields, each possibly absent. -/
structure RunpodData where
  status : Option String
  id : Option String
  output : Option (List OutputItem)
deriving DecidableEq

/-- The image reference extracted from a response body, mirroring the JS
check data.output and data.output[0] and data.output[0].image
(src/api/generate.js lines 256-259 and 304-306). -/
def extractImage (d : RunpodData) : Option String :=
  match d.output with
  | none => none
  | some [] => none
  | some (item :: _) => item.image

/-- Result of one outbound fetch-and-decode: either a decoded body or a
thrown error carrying its message. -/
inductive FetchResult where
  | ok (data : RunpodData)
  | err (message : String)
deriving DecidableEq

/-- Environment of one poll-loop iteration: the wall-clock time the
iteration consumes (the sleep plus the network calls), the result of
the primary status fetch, and the result the alternative endpoint
would give if it were consulted. -/
structure PollIteration where
  durationMs : Nat
  primary : FetchResult
  alt : FetchResult
deriving DecidableEq

/-- Whether the pattern is an initial segment of the character list. -/
def leadsWith : List Char → List Char → Bool
  | [], _ => true
  | _ :: _, [] => false
  | p :: ps, c :: cs => (p == c) && leadsWith ps cs

/-- Whether the pattern occurs anywhere in the character list. -/
def occursIn : List Char → List Char → Bool
  | pat, [] => leadsWith pat []
  | pat, c :: cs => leadsWith pat (c :: cs) || occursIn pat cs

/-- Whether pat occurs in s, mirroring JS String.prototype.includes as
used on the poll error message (src/api/generate.js line 340). -/
def strIncludes (s pat : String) : Bool :=
  occursIn pat.data s.data

/-- What one iteration of the polling while-loop does: send the success
response to the caller, or fall through so the loop keeps polling.  The
source has no third possibility: every throw raised inside the loop
body is caught by the iteration's own catch handler. -/
inductive IterOutcome where
  | success (imageUrl : String)
  | continuePolling
deriving DecidableEq

/-- Total wall-clock budget of the poll loop in ms
(src/api/generate.js line 280). -/
def maxWaitTime : Nat := 300000

/-- Initial poll interval in ms (src/api/generate.js line 282). -/
def initialPollInterval : ℚ := 10000

/-- Ceiling on the poll interval in ms (src/api/generate.js line 283). -/
def maxPollInterval : ℚ := 30000

/-- The catch(pollError) handler inside the polling while-loop
(src/api/generate.js lines 336-378): when the error message contains
"404" it queries the alternative status URL; only a COMPLETED body with
an extractable image returns success to the caller; every other case -
Failed, Cancelled, Completed without an image, a non-COMPLETED status,
or a further thrown error - falls through and the loop continues. -/
def handlePollError (it : PollIteration) (msg : String) : IterOutcome :=
  if strIncludes msg "404" then
    match it.alt with
    | FetchResult.ok d =>
      if d.status = some "COMPLETED" then
        match extractImage d with
        | some url => IterOutcome.success url
        | none => IterOutcome.continuePolling
      else IterOutcome.continuePolling
    | FetchResult.err _ => IterOutcome.continuePolling
  else IterOutcome.continuePolling

/-- One body execution of the polling while-loop (src/api/generate.js
lines 286-378): the outcome of the iteration and the poll interval for
the next one.  The throws raised for a FAILED or CANCELLED status and
for a COMPLETED body without an image land in the iteration's own
catch(pollError) handler, so they are routed through handlePollError
with the thrown message; only the normal continue path (a successful
read with a non-terminal status) updates the interval (line 334). -/
def pollIterationStep (it : PollIteration) (pollInterval : ℚ) :
    IterOutcome × ℚ :=
  match it.primary with
  | FetchResult.ok d =>
    if d.status = some "COMPLETED" then
      match extractImage d with
      | some url => (IterOutcome.success url, pollInterval)
      | none =>
        (handlePollError it "Completed but no image URL in response",
          pollInterval)
    else if d.status = some "FAILED" then
      (handlePollError it "Generation failed on RunPod server", pollInterval)
    else if d.status = some "CANCELLED" then
      (handlePollError it "Generation was cancelled", pollInterval)
    else
      (IterOutcome.continuePolling, min (pollInterval * 1.2) maxPollInterval)
  | FetchResult.err msg => (handlePollError it msg, pollInterval)

/-- Terminal result of the polling while-loop.  success carries the
elapsed ms when the response is sent; timedOut carries the elapsed ms
observed at the failed loop guard (the source reports it rounded to
seconds in the thrown message); outOfIterations marks exhaustion of the
modelled iteration environment at a point where the real loop would
keep polling. -/
inductive PollResult where
  | success (imageUrl : String) (elapsedMs : Nat)
  | timedOut (elapsedMs : Nat)
  | outOfIterations (elapsedMs : Nat) (pollInterval : ℚ)
deriving DecidableEq

/-- The polling while-loop (src/api/generate.js lines 285-383), driven
by a list of iteration environments; elapsed is the value of
Date.now() - startTime at the loop guard. -/
def pollLoop (elapsed : Nat) (pollInterval : ℚ) :
    List PollIteration → PollResult
  | [] =>
    if elapsed < maxWaitTime then
      PollResult.outOfIterations elapsed pollInterval
    else PollResult.timedOut elapsed
  | it :: rest =>
    if elapsed < maxWaitTime then
      match pollIterationStep it pollInterval with
      | (IterOutcome.success url, _) =>
        PollResult.success url (elapsed + it.durationMs)
      | (IterOutcome.continuePolling, nextInterval) =>
        pollLoop (elapsed + it.durationMs) nextInterval rest
    else PollResult.timedOut elapsed

/-- The interval value at the start of each iteration the loop actually
executes, in order. -/
def intervalTrace (elapsed : Nat) (pollInterval : ℚ) :
    List PollIteration → List ℚ
  | [] => []
  | it :: rest =>
    if elapsed < maxWaitTime then
      match pollIterationStep it pollInterval with
      | (IterOutcome.success _, _) => [pollInterval]
      | (IterOutcome.continuePolling, nextInterval) =>
        pollInterval :: intervalTrace (elapsed + it.durationMs) nextInterval rest
    else []

/-- Whether an iteration environment makes the loop continue rather
than return success; the outcome does not depend on the interval. -/
def iterContinues (it : PollIteration) : Bool :=
  match (pollIterationStep it initialPollInterval).1 with
  | IterOutcome.continuePolling => true
  | IterOutcome.success _ => false

/-- Whether the iteration reaches the interval-update line
(src/api/generate.js line 334): the primary read succeeded with a
status that is none of COMPLETED, FAILED, CANCELLED. -/
def primaryContinuesNormally (it : PollIteration) : Bool :=
  match it.primary with
  | FetchResult.ok d =>
    decide (¬ (d.status = some "COMPLETED") ∧ ¬ (d.status = some "FAILED")
      ∧ ¬ (d.status = some "CANCELLED"))
  | FetchResult.err _ => false

/-- Total wall-clock time a list of iterations would consume. -/
def sumDurations (iters : List PollIteration) : Nat :=
  (iters.map (fun it => it.durationMs)).sum

/-- Per-client rate data: window start timestamp and request count
(the objects stored in the requestCounts map). -/
structure RateData where
  firstRequest : Nat
  count : Nat
deriving DecidableEq

/-- Fixed rate-limit window in ms (src/api/generate.js line 20). -/
def RATE_LIMIT_WINDOW : Nat := 60 * 1000

/-- Request limit per window (src/api/generate.js line 21). -/
def MAX_REQUESTS_PER_WINDOW : Nat := 5

/-- The requestCounts map, as an association list with the JS Map
invariant that keys are unique. -/
abbrev RateTable := List (String × RateData)

/-- Map.get / Map.has: the entry stored under a client id. -/
def lookupClient (clientId : String) : RateTable → Option RateData
  | [] => none
  | (k, d) :: rest =>
    if k = clientId then some d else lookupClient clientId rest

/-- Map.set: replace the existing entry or append a new one. -/
def setClient (clientId : String) (d : RateData) : RateTable → RateTable
  | [] => [(clientId, d)]
  | (k, d0) :: rest =>
    if k = clientId then (k, d) :: rest
    else (k, d0) :: setClient clientId d rest

/-- The cleanup sweep (src/api/generate.js lines 179-183): delete every
entry whose window started more than RATE_LIMIT_WINDOW before now. -/
def cleanupCounts (now : Nat) (m : RateTable) : RateTable :=
  m.filter (fun kv => ! decide (RATE_LIMIT_WINDOW < now - kv.2.firstRequest))

/-- Whether the request is admitted or answered with HTTP 429. -/
inductive RateDecision where
  | rejected429
  | allowed
deriving DecidableEq

/-- The rate-limiting block of the handler (src/api/generate.js lines
179-201, identical to rateLimitMiddleware in src/unnamed/part_003):
cleanup sweep, then the fixed-window check keyed by the client id;
returns the decision together with the table after the request. -/
def rateLimitCheck (now : Nat) (clientId : String) (m : RateTable) :
    RateDecision × RateTable :=
  let m1 := cleanupCounts now m
  match lookupClient clientId m1 with
  | some clientData =>
    if now - clientData.firstRequest ≤ RATE_LIMIT_WINDOW then
      if MAX_REQUESTS_PER_WINDOW ≤ clientData.count then
        (RateDecision.rejected429, m1)
      else
        (RateDecision.allowed,
          setClient clientId
            { firstRequest := clientData.firstRequest
              count := clientData.count + 1 } m1)
    else
      (RateDecision.allowed,
        setClient clientId { firstRequest := now, count := 1 } m1)
  | none =>
    (RateDecision.allowed,
      setClient clientId { firstRequest := now, count := 1 } m1)

/-- Outcome of one upload-provider attempt: a decoded body carrying its
success flag and url (data.url for ImgBB, data.link for Imgur), or a
thrown error. -/
inductive ProviderResult where
  | respond (succeeded : Bool) (url : String)
  | throwsErr (message : String)
deriving DecidableEq

/-- Environment of one uploadImageToHost call: the IMGBB_API_KEY value
and what each provider would answer if it were attempted. -/
structure UploadEnv where
  imgbbApiKey : Option String
  imgbbResult : ProviderResult
  imgurResult : ProviderResult
deriving DecidableEq

/-- What uploadImageToHost produces: a hosted url, or a thrown error. -/
inductive UploadOutcome where
  | ok (url : String)
  | err (message : String)
deriving DecidableEq

/-- Whether a provider attempt failed: it threw, or its decoded body
carried a falsy success field. -/
def attemptFails : ProviderResult → Bool
  | ProviderResult.respond succeeded _ => ! succeeded
  | ProviderResult.throwsErr _ => true

/-- The Imgur fallback stage of uploadImageToHost (src/api/generate.js
lines 63-90): a single Imgur attempt; on success return data.link,
otherwise throw the all-services-failed error.  The second component
counts the Imgur attempts made. -/
def imgurStage (env : UploadEnv) : UploadOutcome × Nat :=
  match env.imgurResult with
  | ProviderResult.respond true url => (UploadOutcome.ok url, 1)
  | ProviderResult.respond false _ =>
    (UploadOutcome.err "All image upload services failed", 1)
  | ProviderResult.throwsErr _ =>
    (UploadOutcome.err "All image upload services failed", 1)

/-- uploadImageToHost (src/api/generate.js lines 27-96): one ImgBB
attempt when a key is configured - returning data.url on success,
falling through to the Imgur stage when the attempt throws or reports
failure - and the Imgur stage directly when no key is configured.
Returns the outcome together with the number of attempts made at ImgBB
and at Imgur. -/
def uploadImageToHost (env : UploadEnv) : UploadOutcome × Nat × Nat :=
  match env.imgbbApiKey with
  | some _ =>
    match env.imgbbResult with
    | ProviderResult.respond true url => (UploadOutcome.ok url, 1, 0)
    | ProviderResult.respond false _ =>
      ((imgurStage env).1, 1, (imgurStage env).2)
    | ProviderResult.throwsErr _ =>
      ((imgurStage env).1, 1, (imgurStage env).2)
  | none => ((imgurStage env).1, 0, (imgurStage env).2)

/-- How the handler dispatches on the immediate submit response. -/
inductive SubmitDispatch where
  | immediateSuccess (imageUrl : String)
  | enterPollLoop (jobId : String)
  | fatalError (message : String)
deriving DecidableEq

/-- Rendering of the status field inside a JS template literal:
undefined prints as the string undefined. -/
def statusText : Option String → String
  | none => "undefined"
  | some s => s

/-- Dispatch on the immediate submit response (src/api/generate.js
lines 252-398, with the polling body factored out): COMPLETED together
with an extractable image returns success at once; IN_PROGRESS needs a
job id to start polling and throws when it is missing; FAILED,
CANCELLED and every remaining status - including COMPLETED without an
extractable image - throw. -/
def dispatchSubmitResponse (d : RunpodData) : SubmitDispatch :=
  match if d.status = some "COMPLETED" then extractImage d else none with
  | some url => SubmitDispatch.immediateSuccess url
  | none =>
    if d.status = some "IN_PROGRESS" then
      match d.id with
      | none => SubmitDispatch.fatalError "No job ID received from RunPod"
      | some jobId => SubmitDispatch.enterPollLoop jobId
    else if d.status = some "FAILED" then
      SubmitDispatch.fatalError "Generation failed on RunPod server"
    else if d.status = some "CANCELLED" then
      SubmitDispatch.fatalError "Generation was cancelled"
    else
      SubmitDispatch.fatalError
        ("Unexpected response status: " ++ statusText d.status)

/-- The externally visible outcome of the handler from the submit
response on. -/
inductive HandlerOutcome where
  | jsonSuccess (imageUrl : String)
  | jsonError500
  | modelOutOfIterations
deriving DecidableEq

/-- The handler from the decoded submit response on (src/api/generate.js
lines 252-408): an immediate completion answers success, an in-progress
response with a job id runs the poll loop, and every throw - fatal
dispatch errors and the poll-loop timeout alike - lands in the outer
catch, which sends the fixed 500 body. -/
def handleSubmitResponse (d : RunpodData) (iters : List PollIteration) :
    HandlerOutcome :=
  match dispatchSubmitResponse d with
  | SubmitDispatch.immediateSuccess url => HandlerOutcome.jsonSuccess url
  | SubmitDispatch.fatalError _ => HandlerOutcome.jsonError500
  | SubmitDispatch.enterPollLoop _ =>
    match pollLoop 0 initialPollInterval iters with
    | PollResult.success url _ => HandlerOutcome.jsonSuccess url
    | PollResult.timedOut _ => HandlerOutcome.jsonError500
    | PollResult.outOfIterations _ _ => HandlerOutcome.modelOutOfIterations

/-- A multipart form part as produced by parseMultipartFormData
(src/api/generate.js lines 108-144). -/
structure FormPart where
  name : String
  data : String
deriving DecidableEq

/-- The swap_type field of the RunPod payload built by
src/api/generate.js (line 237): the literal Auto, whatever parts the
parsed form contained - the handler never reads a swapType part. -/
def runpodSwapType (_parts : List FormPart) : String := "Auto"

/-- Value of a form field as formidable presents it: absent, a plain
string, or an array of strings. -/
inductive FormFieldValue where
  | absent
  | str (s : String)
  | arr (l : List String)
deriving DecidableEq

/-- The legacy swap-type selection (src/unnamed/part_000 line 234):
fields.swapType[0] when the field is an array, otherwise
fields.swapType with default Auto for a missing or empty value; none
models JS undefined (an empty array indexed at 0). -/
def legacySwapType (v : FormFieldValue) : Option String :=
  match v with
  | FormFieldValue.arr l => l.head?
  | FormFieldValue.str s => if s = "" then some "Auto" else some s
  | FormFieldValue.absent => some "Auto"

/-- A poll read answering FAILED. -/
def failedIter : PollIteration :=
  { durationMs := 10000
    primary := FetchResult.ok { status := some "FAILED", id := none, output := none }
    alt := FetchResult.err "unused" }

/-- A poll read answering CANCELLED. -/
def cancelledIter : PollIteration :=
  { durationMs := 10000
    primary := FetchResult.ok { status := some "CANCELLED", id := none, output := none }
    alt := FetchResult.err "unused" }

/-- A poll read answering COMPLETED with an empty output array. -/
def completedNoImageIter : PollIteration :=
  { durationMs := 10000
    primary := FetchResult.ok { status := some "COMPLETED", id := none, output := some [] }
    alt := FetchResult.err "unused" }

/-- A poll read answering IN_PROGRESS, consuming 20 s. -/
def contIter : PollIteration :=
  { durationMs := 20000
    primary := FetchResult.ok { status := some "IN_PROGRESS", id := none, output := none }
    alt := FetchResult.err "unused" }

/-- A poll iteration whose primary fetch throws. -/
def pollErrIter : PollIteration :=
  { durationMs := 10000
    primary := FetchResult.err "network blip"
    alt := FetchResult.err "unused" }

/-- A poll iteration whose primary fetch fails with a 404 and whose
alternative endpoint answers COMPLETED with an image. -/
def altCompletedIter : PollIteration :=
  { durationMs := 10000
    primary := FetchResult.err "Request failed 404"
    alt := FetchResult.ok
      { status := some "COMPLETED", id := none
        output := some [{ image := some "https://host/result.jpg" }] } }

/-- An upload environment where ImgBB is configured but reports failure
and Imgur throws. -/
def uploadEnvBothFail : UploadEnv :=
  { imgbbApiKey := some "key"
    imgbbResult := ProviderResult.respond false ""
    imgurResult := ProviderResult.throwsErr "ECONNRESET" }

/-- A rate table holding one client at the limit inside its window. -/
def c4Table : RateTable :=
  [("1.2.3.4", { firstRequest := 1000, count := 5 })]

/-- A rate table holding one client whose window has fully elapsed. -/
def c7Table : RateTable :=
  [("9.9.9.9", { firstRequest := 0, count := 5 })]

/-- A submit response that completed immediately with an image. -/
def immediateDone : RunpodData :=
  { status := some "COMPLETED", id := none
    output := some [{ image := some "https://host/done.jpg" }] }

/-- A submit response in progress but with no job id. -/
def inProgressNoId : RunpodData :=
  { status := some "IN_PROGRESS", id := none, output := none }

/-- A submit response claiming completion with an empty output array. -/
def completedNoImageData : RunpodData :=
  { status := some "COMPLETED", id := some "job-1", output := some [] }

/-- The outcome of an iteration does not depend on the current poll
interval; only the returned next interval does. -/
theorem pollIterationStep_fst (it : PollIteration) (i j : ℚ) :
    (pollIterationStep it i).1 = (pollIterationStep it j).1 := by
  cases hp : it.primary with
  | ok d =>
    simp only [pollIterationStep, hp]
    by_cases h1 : d.status = some "COMPLETED"
    · simp only [h1, if_true]
      cases extractImage d <;> simp
    · by_cases h2 : d.status = some "FAILED"
      · simp [h1, h2]
      · by_cases h3 : d.status = some "CANCELLED" <;> simp [h1, h2, h3]
  | err msg => simp [pollIterationStep, hp]

/-- Characterisation of the next interval: it grows (capped) exactly on
the normal continue path and is left unchanged everywhere else. -/
theorem pollIterationStep_snd (it : PollIteration) (i : ℚ) :
    (pollIterationStep it i).2 =
      if primaryContinuesNormally it = true then min (i * 1.2) maxPollInterval
      else i := by
  cases hp : it.primary with
  | ok d =>
    simp only [pollIterationStep, primaryContinuesNormally, hp]
    by_cases h1 : d.status = some "COMPLETED"
    · simp only [h1, if_true]
      cases extractImage d <;> simp [h1]
    · by_cases h2 : d.status = some "FAILED"
      · simp [h1, h2]
      · by_cases h3 : d.status = some "CANCELLED" <;> simp [h1, h2, h3]
  | err msg => simp [pollIterationStep, primaryContinuesNormally, hp]

/-- A continuing iteration continues at every interval value. -/
theorem iterContinues_fst (it : PollIteration) (i : ℚ)
    (h : iterContinues it = true) :
    (pollIterationStep it i).1 = IterOutcome.continuePolling := by
  rw [pollIterationStep_fst it i initialPollInterval]
  cases hf : (pollIterationStep it initialPollInterval).1 with
  | continuePolling => rfl
  | success url => simp [iterContinues, hf] at h

/-- Once the budget has elapsed the loop stops at the guard. -/
theorem pollLoop_timedOut_of_budget (elapsed : Nat) (i : ℚ)
    (iters : List PollIteration) (h : maxWaitTime ≤ elapsed) :
    pollLoop elapsed i iters = PollResult.timedOut elapsed := by
  cases iters <;> simp [pollLoop, Nat.not_lt.mpr h]

/-- A run whose iterations all continue reaches timedOut as soon as the
accumulated iteration time passes the budget. -/
theorem pollLoop_timedOut_of_continues (iters : List PollIteration) :
    ∀ (elapsed : Nat) (i : ℚ),
      (∀ it ∈ iters, iterContinues it = true) →
      maxWaitTime ≤ elapsed + sumDurations iters →
      ∃ e, pollLoop elapsed i iters = PollResult.timedOut e ∧
        maxWaitTime ≤ e := by
  induction iters with
  | nil =>
    intro elapsed i _ hsum
    have h : maxWaitTime ≤ elapsed := by simpa [sumDurations] using hsum
    exact ⟨elapsed, pollLoop_timedOut_of_budget elapsed i [] h, h⟩
  | cons it rest ih =>
    intro elapsed i hcont hsum
    by_cases hlt : elapsed < maxWaitTime
    · have hc : (pollIterationStep it i).1 = IterOutcome.continuePolling :=
        iterContinues_fst it i (hcont it (by simp))
      rcases hstep : pollIterationStep it i with ⟨o, i2⟩
      have ho : o = IterOutcome.continuePolling := by rw [hstep] at hc; exact hc
      subst ho
      have hsum2 : maxWaitTime ≤ elapsed + it.durationMs + sumDurations rest := by
        simp only [sumDurations, List.map_cons, List.sum_cons] at hsum ⊢
        omega
      obtain ⟨e, he, hle⟩ :=
        ih (elapsed + it.durationMs) i2 (fun x hx => hcont x (by simp [hx])) hsum2
      exact ⟨e, by simp [pollLoop, hlt, hstep, he], hle⟩
    · exact ⟨elapsed, by simp [pollLoop, hlt], Nat.le_of_not_lt hlt⟩

/-- C1: code-bug evidence.  The claim says a successful status read of
Failed or Cancelled ends the Poll Loop with a terminal failure and a
Completed read without an extractable image ends it with a malformed
completion failure.  In the code those three cases throw inside the
iteration's own try block and the catch(pollError) handler swallows the
throw and keeps polling: each such read yields continuePolling, and a
run fed only FAILED reads ends in timedOut, never in a failure. -/
theorem c1_terminal_statuses_swallowed :
    (pollIterationStep failedIter initialPollInterval).1 =
      IterOutcome.continuePolling ∧
    (pollIterationStep cancelledIter initialPollInterval).1 =
      IterOutcome.continuePolling ∧
    (pollIterationStep completedNoImageIter initialPollInterval).1 =
      IterOutcome.continuePolling ∧
    pollLoop 0 initialPollInterval (List.replicate 30 failedIter) =
      PollResult.timedOut 300000 :=
  ⟨rfl, rfl, rfl, rfl⟩

/-- C2: the poll loop performs no further iteration once the wall-clock
budget of 300000 ms has elapsed - it reports timedOut carrying the
elapsed time - and a run that never reaches a terminal state times out
once its accumulated iteration time passes the budget. -/
theorem c2_poll_budget :
    (∀ (elapsed : Nat) (i : ℚ) (iters : List PollIteration),
      maxWaitTime ≤ elapsed →
      pollLoop elapsed i iters = PollResult.timedOut elapsed) ∧
    (∀ (iters : List PollIteration) (elapsed : Nat) (i : ℚ),
      (∀ it ∈ iters, iterContinues it = true) →
      maxWaitTime ≤ elapsed + sumDurations iters →
      ∃ e, pollLoop elapsed i iters = PollResult.timedOut e ∧
        maxWaitTime ≤ e) :=
  ⟨fun elapsed i iters h => pollLoop_timedOut_of_budget elapsed i iters h,
   fun iters elapsed i hcont hsum =>
     pollLoop_timedOut_of_continues iters elapsed i hcont hsum⟩

/-- C2 witness: a run already past the budget stops at once, and
fifteen 20-second in-progress iterations exhaust the 300-second budget
and end in timedOut. -/
theorem c2_poll_budget_witness :
    pollLoop 400000 initialPollInterval [contIter] =
      PollResult.timedOut 400000 ∧
    ∃ e, pollLoop 0 initialPollInterval (List.replicate 15 contIter) =
      PollResult.timedOut e ∧ maxWaitTime ≤ e :=
  ⟨c2_poll_budget.1 400000 initialPollInterval [contIter] (by decide),
   c2_poll_budget.2 (List.replicate 15 contIter) 0 initialPollInterval
     (fun it hit => by rw [List.eq_of_mem_replicate hit]; decide)
     (by decide)⟩

/-- One step keeps the interval within its bounds and never shrinks it. -/
theorem interval_le_step (it : PollIteration) (i : ℚ) (h0 : 0 ≤ i)
    (h1 : i ≤ maxPollInterval) :
    i ≤ (pollIterationStep it i).2 ∧
    (pollIterationStep it i).2 ≤ maxPollInterval ∧
    0 ≤ (pollIterationStep it i).2 := by
  rw [pollIterationStep_snd]
  by_cases h : primaryContinuesNormally it = true
  · rw [if_pos h]
    refine ⟨le_min (by linarith) h1, min_le_right _ _, le_min (by linarith) ?_⟩
    norm_num [maxPollInterval]
  · rw [if_neg h]
    exact ⟨le_refl i, h1, h0⟩

/-- The interval trace is empty or starts with the incoming interval. -/
theorem intervalTrace_head (iters : List PollIteration) (elapsed : Nat)
    (i : ℚ) :
    intervalTrace elapsed i iters = [] ∨
      ∃ t, intervalTrace elapsed i iters = i :: t := by
  cases iters with
  | nil => exact Or.inl rfl
  | cons it rest =>
    by_cases h : elapsed < maxWaitTime
    · rcases hstep : pollIterationStep it i with ⟨o, i2⟩
      cases o with
      | success url => exact Or.inr ⟨[], by simp [intervalTrace, h, hstep]⟩
      | continuePolling =>
        exact Or.inr ⟨intervalTrace (elapsed + it.durationMs) i2 rest,
          by simp [intervalTrace, h, hstep]⟩
    · exact Or.inl (by simp [intervalTrace, h])

/-- Along any run the executed interval values form a non-decreasing
sequence bounded by the ceiling, provided the start value is. -/
theorem intervalTrace_chain (iters : List PollIteration) :
    ∀ (elapsed : Nat) (i : ℚ), 0 ≤ i → i ≤ maxPollInterval →
      List.Chain' (· ≤ ·) (intervalTrace elapsed i iters) ∧
      ∀ x ∈ intervalTrace elapsed i iters, 0 ≤ x ∧ x ≤ maxPollInterval := by
  induction iters with
  | nil => intro elapsed i h0 h1; simp [intervalTrace]
  | cons it rest ih =>
    intro elapsed i h0 h1
    by_cases h : elapsed < maxWaitTime
    · rcases hstep : pollIterationStep it i with ⟨o, i2⟩
      cases o with
      | success url =>
        constructor
        · simp [intervalTrace, h, hstep]
        · intro x hx
          simp only [intervalTrace, h, if_true, hstep, List.mem_singleton] at hx
          exact hx ▸ ⟨h0, h1⟩
      | continuePolling =>
        have hb := interval_le_step it i h0 h1
        rw [hstep] at hb
        obtain ⟨hb1, hb2, hb3⟩ := hb
        have ihr := ih (elapsed + it.durationMs) i2 hb3 hb2
        constructor
        · simp only [intervalTrace, h, if_true, hstep]
          rw [List.chain'_cons']
          refine ⟨?_, ihr.1⟩
          intro b hbmem
          rcases intervalTrace_head rest (elapsed + it.durationMs) i2 with
            hemp | ⟨t, ht⟩
          · rw [hemp] at hbmem; simp at hbmem
          · rw [ht] at hbmem
            simp only [List.head?_cons, Option.mem_def, Option.some.injEq]
              at hbmem
            exact hbmem ▸ hb1
        · intro x hx
          simp only [intervalTrace, h, if_true, hstep, List.mem_cons] at hx
          rcases hx with rfl | hx
          · exact ⟨h0, h1⟩
          · exact ihr.2 x hx
    · simp [intervalTrace, h]

/-- C3 counterexample: an iteration that continues through the error
path (a thrown poll error) leaves the interval at 10000 instead of
setting it to min(10000 * 1.2, 30000) = 12000, so the claim that each
continuing iteration sets the interval to min(interval * 1.2, 30000)
fails at this input. -/
theorem c3_error_iteration_skips_growth :
    iterContinues pollErrIter = true ∧
    (pollIterationStep pollErrIter initialPollInterval).2 =
      initialPollInterval ∧
    min (initialPollInterval * 1.2) maxPollInterval = 12000 ∧
    initialPollInterval ≠ (12000 : ℚ) := by
  refine ⟨rfl, rfl, by norm_num [initialPollInterval, maxPollInterval], ?_⟩
  norm_num [initialPollInterval]

/-- C3 amended: the poll interval is monotonically non-decreasing and
never exceeds the 30000 ms ceiling across every run starting at
10000 ms; an iteration that reaches the update line (a successful read
with a non-terminal status) sets it to min(interval * 1.2, 30000),
while an iteration that continues through the error path leaves it
unchanged. -/
theorem c3_interval_monotone_bounded :
    (∀ (iters : List PollIteration) (elapsed : Nat),
      List.Chain' (· ≤ ·) (intervalTrace elapsed initialPollInterval iters) ∧
      ∀ x ∈ intervalTrace elapsed initialPollInterval iters,
        0 ≤ x ∧ x ≤ maxPollInterval) ∧
    (∀ (it : PollIteration) (i : ℚ), primaryContinuesNormally it = true →
      (pollIterationStep it i).2 = min (i * 1.2) maxPollInterval) ∧
    (∀ (it : PollIteration) (i : ℚ), primaryContinuesNormally it = false →
      (pollIterationStep it i).2 = i) :=
  ⟨fun iters elapsed =>
    intervalTrace_chain iters elapsed initialPollInterval
      (by norm_num [initialPollInterval])
      (by norm_num [initialPollInterval, maxPollInterval]),
   fun it i h => by rw [pollIterationStep_snd, if_pos h],
   fun it i h => by rw [pollIterationStep_snd, if_neg (by simp [h])]⟩

/-- C3 witness: the invariant on a concrete three-iteration run, the
growth equation at a normally continuing read, and the unchanged
interval at an error iteration. -/
theorem c3_interval_monotone_bounded_witness :
    List.Chain' (· ≤ ·)
      (intervalTrace 0 initialPollInterval [contIter, pollErrIter, contIter]) ∧
    (pollIterationStep contIter initialPollInterval).2 =
      min (initialPollInterval * 1.2) maxPollInterval ∧
    (pollIterationStep pollErrIter initialPollInterval).2 =
      initialPollInterval :=
  ⟨(c3_interval_monotone_bounded.1 [contIter, pollErrIter, contIter] 0).1,
   c3_interval_monotone_bounded.2.1 contIter initialPollInterval (by decide),
   c3_interval_monotone_bounded.2.2 pollErrIter initialPollInterval
     (by decide)⟩

/-- Lookup commutes with a filter that keeps the found entry. -/
theorem lookupClient_filter (clientId : String)
    (p : String × RateData → Bool) (m : RateTable) (d : RateData)
    (hlook : lookupClient clientId m = some d)
    (hp : p (clientId, d) = true) :
    lookupClient clientId (m.filter p) = some d := by
  induction m with
  | nil => simp [lookupClient] at hlook
  | cons kv rest ih =>
    obtain ⟨k, d0⟩ := kv
    by_cases hk : k = clientId
    · subst hk
      have hd : d0 = d := by simpa [lookupClient] using hlook
      subst hd
      simp [List.filter_cons, hp, lookupClient]
    · simp only [lookupClient, if_neg hk] at hlook
      rw [List.filter_cons]
      by_cases hpk : p (k, d0) = true
      · rw [if_pos hpk]
        simp only [lookupClient, if_neg hk]
        exact ih hlook
      · rw [if_neg hpk]
        exact ih hlook

/-- A key that does not occur in the table looks up to none. -/
theorem lookupClient_none_of_not_key (clientId : String) (m : RateTable)
    (h : clientId ∉ m.map Prod.fst) : lookupClient clientId m = none := by
  induction m with
  | nil => rfl
  | cons kv rest ih =>
    obtain ⟨k, d0⟩ := kv
    simp only [List.map_cons, List.mem_cons] at h
    push_neg at h
    have hne : ¬ (k = clientId) := fun he => h.1 he.symm
    simp only [lookupClient, if_neg hne]
    exact ih h.2

/-- With unique keys, filtering away the found entry removes the key
from the table entirely. -/
theorem lookupClient_filter_none (clientId : String)
    (p : String × RateData → Bool) (m : RateTable) (d : RateData)
    (hnodup : (m.map Prod.fst).Nodup)
    (hlook : lookupClient clientId m = some d)
    (hp : p (clientId, d) = false) :
    lookupClient clientId (m.filter p) = none := by
  induction m with
  | nil => simp [lookupClient] at hlook
  | cons kv rest ih =>
    obtain ⟨k, d0⟩ := kv
    simp only [List.map_cons, List.nodup_cons] at hnodup
    obtain ⟨hknotin, hnodup2⟩ := hnodup
    by_cases hk : k = clientId
    · subst hk
      have hd : d0 = d := by simpa [lookupClient] using hlook
      subst hd
      rw [List.filter_cons, if_neg (by simp [hp])]
      apply lookupClient_none_of_not_key
      intro hmem
      apply hknotin
      simp only [List.mem_map] at hmem ⊢
      obtain ⟨kv2, hkv2, hfst⟩ := hmem
      exact ⟨kv2, List.mem_of_mem_filter hkv2, hfst⟩
    · simp only [lookupClient, if_neg hk] at hlook
      rw [List.filter_cons]
      by_cases hpk : p (k, d0) = true
      · rw [if_pos hpk]
        simp only [lookupClient, if_neg hk]
        exact ih hnodup2 hlook
      · rw [if_neg hpk]
        exact ih hnodup2 hlook

/-- Map.set stores the entry under the key it was set with. -/
theorem lookupClient_setClient (clientId : String) (d : RateData)
    (m : RateTable) :
    lookupClient clientId (setClient clientId d m) = some d := by
  induction m with
  | nil => simp [setClient, lookupClient]
  | cons kv rest ih =>
    obtain ⟨k, d0⟩ := kv
    by_cases hk : k = clientId
    · simp [setClient, hk, lookupClient]
    · simp [setClient, hk, lookupClient, ih]

/-- C4: a client whose stored counter has reached the limit inside the
current 60 s window is rejected with 429, and its stored entry - both
the counter and the window start - is left exactly as it was. -/
theorem c4_rate_limit_reject (now : Nat) (clientId : String) (m : RateTable)
    (d : RateData) (hlook : lookupClient clientId m = some d)
    (hwin : now - d.firstRequest ≤ RATE_LIMIT_WINDOW)
    (hcount : MAX_REQUESTS_PER_WINDOW ≤ d.count) :
    (rateLimitCheck now clientId m).1 = RateDecision.rejected429 ∧
    lookupClient clientId (rateLimitCheck now clientId m).2 = some d := by
  have hkeep : (fun kv : String × RateData =>
      ! decide (RATE_LIMIT_WINDOW < now - kv.2.firstRequest))
        (clientId, d) = true := by
    simp [Nat.not_lt.mpr hwin]
  have hl1 : lookupClient clientId (cleanupCounts now m) = some d :=
    lookupClient_filter clientId _ m d hlook hkeep
  constructor
  · simp only [rateLimitCheck]
    rw [hl1]
    simp [hwin, hcount]
  · simp only [rateLimitCheck]
    rw [hl1]
    simp [hwin, hcount, hl1]

/-- C4 witness: the sixth request inside the window from a client at
the limit of five is rejected and the stored entry is unchanged. -/
theorem c4_rate_limit_reject_witness :
    (rateLimitCheck 50000 "1.2.3.4" c4Table).1 = RateDecision.rejected429 ∧
    lookupClient "1.2.3.4" (rateLimitCheck 50000 "1.2.3.4" c4Table).2 =
      some { firstRequest := 1000, count := 5 } :=
  c4_rate_limit_reject 50000 "1.2.3.4" c4Table
    { firstRequest := 1000, count := 5 } (by decide) (by decide) (by decide)

/-- C7: a request arriving after the client's previous 60 s window has
fully elapsed is admitted, and the client's entry is reset to count 1
with the window starting at the arrival time. -/
theorem c7_rate_limit_window_reset (now : Nat) (clientId : String)
    (m : RateTable) (d : RateData)
    (hnodup : (m.map Prod.fst).Nodup)
    (hlook : lookupClient clientId m = some d)
    (hwin : RATE_LIMIT_WINDOW < now - d.firstRequest) :
    (rateLimitCheck now clientId m).1 = RateDecision.allowed ∧
    lookupClient clientId (rateLimitCheck now clientId m).2 =
      some { firstRequest := now, count := 1 } := by
  have hdrop : (fun kv : String × RateData =>
      ! decide (RATE_LIMIT_WINDOW < now - kv.2.firstRequest))
        (clientId, d) = false := by
    simp [hwin]
  have hnone : lookupClient clientId (cleanupCounts now m) = none :=
    lookupClient_filter_none clientId _ m d hnodup hlook hdrop
  constructor
  · simp only [rateLimitCheck]
    rw [hnone]
  · simp only [rateLimitCheck]
    rw [hnone]
    exact lookupClient_setClient clientId _ _

/-- C7 witness: a client whose window started at time 0 and who returns
at 70000 ms is admitted with a fresh entry of count 1 at 70000. -/
theorem c7_rate_limit_window_reset_witness :
    (rateLimitCheck 70000 "9.9.9.9" c7Table).1 = RateDecision.allowed ∧
    lookupClient "9.9.9.9" (rateLimitCheck 70000 "9.9.9.9" c7Table).2 =
      some { firstRequest := 70000, count := 1 } :=
  c7_rate_limit_window_reset 70000 "9.9.9.9" c7Table
    { firstRequest := 0, count := 5 } (by decide) (by decide) (by decide)

/-- C5: the Imgur fallback is attempted exactly when ImgBB is
unconfigured or its single attempt fails (throws or reports a falsy
success field); each provider is attempted at most once, ImgBB exactly
when configured; and the upload throws the all-services-failed error
only when Imgur failed and, if ImgBB was configured, ImgBB failed
too. -/
theorem c5_upload_fallback (env : UploadEnv) :
    ((uploadImageToHost env).2.2 = 1 ↔
      (env.imgbbApiKey = none ∨ attemptFails env.imgbbResult = true)) ∧
    ((uploadImageToHost env).2.1 = 1 ↔ env.imgbbApiKey ≠ none) ∧
    (uploadImageToHost env).2.1 ≤ 1 ∧ (uploadImageToHost env).2.2 ≤ 1 ∧
    (∀ msg, (uploadImageToHost env).1 = UploadOutcome.err msg →
      attemptFails env.imgurResult = true ∧
      ∀ k, env.imgbbApiKey = some k → attemptFails env.imgbbResult = true) := by
  obtain ⟨key, bb, ur⟩ := env
  cases key <;>
    rcases bb with ⟨_ | _, bu⟩ | bm <;>
    rcases ur with ⟨_ | _, uu⟩ | um <;>
      simp [uploadImageToHost, imgurStage, attemptFails]

/-- C5 witness: with ImgBB configured but failing and Imgur throwing,
the Imgur fallback is attempted and both providers count as failed. -/
theorem c5_upload_fallback_witness :
    (uploadImageToHost uploadEnvBothFail).2.2 = 1 ∧
    attemptFails uploadEnvBothFail.imgurResult = true ∧
    attemptFails uploadEnvBothFail.imgbbResult = true :=
  ⟨(c5_upload_fallback uploadEnvBothFail).1.mpr (Or.inr (by decide)),
   ((c5_upload_fallback uploadEnvBothFail).2.2.2.2
     "All image upload services failed" (by decide)).1,
   ((c5_upload_fallback uploadEnvBothFail).2.2.2.2
     "All image upload services failed" (by decide)).2 "key" (by decide)⟩

/-- C6: an immediate COMPLETED submit response carrying an extractable
image answers success at once, for every possible polling environment
(so no poll iteration is involved); and an IN_PROGRESS response with no
job id throws the fatal no-job-id error, landing in the 500 handler
instead of entering the poll loop. -/
theorem c6_immediate_and_missing_job_id :
    (∀ (d : RunpodData) (url : String) (iters : List PollIteration),
      d.status = some "COMPLETED" → extractImage d = some url →
      dispatchSubmitResponse d = SubmitDispatch.immediateSuccess url ∧
      handleSubmitResponse d iters = HandlerOutcome.jsonSuccess url) ∧
    (∀ (d : RunpodData) (iters : List PollIteration),
      d.status = some "IN_PROGRESS" → d.id = none →
      dispatchSubmitResponse d =
        SubmitDispatch.fatalError "No job ID received from RunPod" ∧
      handleSubmitResponse d iters = HandlerOutcome.jsonError500) := by
  constructor
  · intro d url iters h1 h2
    have hd : dispatchSubmitResponse d = SubmitDispatch.immediateSuccess url := by
      simp [dispatchSubmitResponse, h1, h2]
    exact ⟨hd, by simp [handleSubmitResponse, hd]⟩
  · intro d iters h1 h2
    have hd : dispatchSubmitResponse d =
        SubmitDispatch.fatalError "No job ID received from RunPod" := by
      simp [dispatchSubmitResponse, h1, h2]
    exact ⟨hd, by simp [handleSubmitResponse, hd]⟩

/-- C6 witness: a concrete immediately-completed response answers
success with its image url, and a concrete id-less in-progress response
produces the fatal error and the 500 outcome. -/
theorem c6_immediate_and_missing_job_id_witness :
    (dispatchSubmitResponse immediateDone =
      SubmitDispatch.immediateSuccess "https://host/done.jpg" ∧
     handleSubmitResponse immediateDone [] =
      HandlerOutcome.jsonSuccess "https://host/done.jpg") ∧
    (dispatchSubmitResponse inProgressNoId =
      SubmitDispatch.fatalError "No job ID received from RunPod" ∧
     handleSubmitResponse inProgressNoId [] = HandlerOutcome.jsonError500) :=
  ⟨c6_immediate_and_missing_job_id.1 immediateDone "https://host/done.jpg"
     [] rfl rfl,
   c6_immediate_and_missing_job_id.2 inProgressNoId [] rfl rfl⟩

/-- C9: in the alternative status-endpoint fallback (taken when the
poll error message contains 404), the handler returns success exactly
when the alternative read decodes to COMPLETED with an extractable
image; in every other case - Failed, Cancelled, Completed without an
image, another status or a further error - it yields continuePolling,
so the loop keeps polling and no terminal failure is produced. -/
theorem c9_alt_endpoint_only_success_terminates (it : PollIteration)
    (msg : String) (h404 : strIncludes msg "404" = true) :
    (∀ url, handlePollError it msg = IterOutcome.success url ↔
      ∃ d, it.alt = FetchResult.ok d ∧ d.status = some "COMPLETED" ∧
        extractImage d = some url) ∧
    ((∃ url, handlePollError it msg = IterOutcome.success url) ∨
      handlePollError it msg = IterOutcome.continuePolling) := by
  constructor
  · intro url
    unfold handlePollError
    rw [if_pos h404]
    cases halt : it.alt with
    | ok d =>
      dsimp only
      by_cases hst : d.status = some "COMPLETED"
      · rw [if_pos hst]
        cases himg : extractImage d with
        | some u =>
          constructor
          · intro he
            have hu : u = url := by simpa using he
            exact ⟨d, rfl, hst, by rw [himg, hu]⟩
          · rintro ⟨d2, hd2, hst2, himg2⟩
            have hdd : d = d2 := by simpa using hd2
            subst hdd
            rw [himg] at himg2
            have hu : u = url := by simpa using himg2
            rw [hu]
        | none =>
          simp only [himg]
          constructor
          · intro he; cases he
          · rintro ⟨d2, hd2, hst2, himg2⟩
            have hdd : d = d2 := by simpa using hd2
            subst hdd
            rw [himg] at himg2
            cases himg2
      · rw [if_neg hst]
        constructor
        · intro he; cases he
        · rintro ⟨d2, hd2, hst2, himg2⟩
          have hdd : d = d2 := by simpa using hd2
          subst hdd
          exact absurd hst2 hst
    | err m =>
      dsimp only
      constructor
      · intro he; cases he
      · rintro ⟨d2, hd2, hst2, himg2⟩
        cases hd2
  · cases he : handlePollError it msg with
    | success url => exact Or.inl ⟨url, rfl⟩
    | continuePolling => exact Or.inr rfl

/-- C9 witness: with a 404 poll error and an alternative read that is
COMPLETED with an image, the fallback returns success with that url. -/
theorem c9_alt_endpoint_witness :
    handlePollError altCompletedIter "Request failed 404" =
      IterOutcome.success "https://host/result.jpg" :=
  ((c9_alt_endpoint_only_success_terminates altCompletedIter
      "Request failed 404" (by decide)).1 "https://host/result.jpg").mpr
    ⟨{ status := some "COMPLETED", id := none
       output := some [{ image := some "https://host/result.jpg" }] },
     rfl, rfl, rfl⟩

/-- C10: a submit response with status COMPLETED but no extractable
image is neither a success nor a poll-loop entry: it falls through to
the unexpected-status branch, whose thrown message names the status,
and the handler answers with the classified 500 error response. -/
theorem c10_completed_without_image (d : RunpodData)
    (iters : List PollIteration) (h1 : d.status = some "COMPLETED")
    (h2 : extractImage d = none) :
    dispatchSubmitResponse d =
      SubmitDispatch.fatalError "Unexpected response status: COMPLETED" ∧
    handleSubmitResponse d iters = HandlerOutcome.jsonError500 := by
  have hd : dispatchSubmitResponse d =
      SubmitDispatch.fatalError "Unexpected response status: COMPLETED" := by
    simp [dispatchSubmitResponse, h1, h2, statusText]
  exact ⟨hd, by simp [handleSubmitResponse, hd]⟩

/-- C10 witness: a concrete COMPLETED response with an empty output
array lands in the unexpected-status branch and yields the 500
outcome. -/
theorem c10_completed_without_image_witness :
    dispatchSubmitResponse completedNoImageData =
      SubmitDispatch.fatalError "Unexpected response status: COMPLETED" ∧
    handleSubmitResponse completedNoImageData [] =
      HandlerOutcome.jsonError500 :=
  c10_completed_without_image completedNoImageData [] rfl rfl

/-- C8 counterexample: with a swapType part present and equal to Male,
src/api/generate.js still submits the fixed style Auto, so the claim
that the submitted style equals the swapType field when present fails
at this input. -/
theorem c8_swap_type_ignored :
    runpodSwapType [{ name := "swapType", data := "Male" }] = "Auto" ∧
    ("Auto" : String) ≠ "Male" :=
  ⟨rfl, by decide⟩

/-- C8 amended: src/api/generate.js always submits the fixed style
Auto, whatever the form contained; only the legacy variant
(src/unnamed/part_000) submits the request's swapType field when it is
present and non-empty (the first element when the field is repeated)
and the fixed default Auto when it is absent or empty. -/
theorem c8_swap_type_amended :
    (∀ parts : List FormPart, runpodSwapType parts = "Auto") ∧
    legacySwapType FormFieldValue.absent = some "Auto" ∧
    (∀ s : String, s ≠ "" →
      legacySwapType (FormFieldValue.str s) = some s) ∧
    (∀ (s : String) (l : List String),
      legacySwapType (FormFieldValue.arr (s :: l)) = some s) := by
  refine ⟨fun _ => rfl, rfl, ?_, fun s l => rfl⟩
  intro s hs
  simp [legacySwapType, hs]

/-- C8 witness: the main handler submits Auto even when a swapType part
holding Male is present, while the legacy variant submits Male. -/
theorem c8_swap_type_amended_witness :
    runpodSwapType [{ name := "swapType", data := "Male" }] = "Auto" ∧
    legacySwapType (FormFieldValue.str "Male") = some "Male" :=
  ⟨c8_swap_type_amended.1 [{ name := "swapType", data := "Male" }],
   c8_swap_type_amended.2.2.1 "Male" (by decide)⟩

end CameleonTryon
